import Mathlib

/-!
Shallow embedding of the routing and chain-composition core of the
`samyx-utilities` `trpc-utils` package, together with proofs of the
specified properties.

Sources embedded:
 - `src/packages/trpc-utils/src/switch-link.ts` (`asArray`, `switchLink`)
 - `src/packages/trpc-utils/src/endpoint-router-link.ts`
   (`asArray`, `endpointRouterLink`, `typedEndpointRouterLink`)
 - `createChain` (the Chain Executor) is imported by both routers but its
   source file is not among the provided sources; it is modelled from the
   specification (section 4.1).

Modelling conventions:
 - A result stream (a tRPC observable, which is a cold single-subscriber
   sequence of `next` values followed by one terminal event) is modelled as
   the list of emitted values together with the terminal event: either
   `complete` or `error msg`.  Emitting an error terminates the stream.
 - An initialized link (tRPC `OperationLink`) is a function from an
   operation and a `forward` continuation to a result stream; a link
   (tRPC `TRPCLink`) is a function from the runtime object to an
   initialized link.
 - JavaScript objects / `Map`s used as string-keyed dictionaries are
   modelled as association lists (`List (String × _)`); key order is
   insertion order, matching `Object.keys` / `Map.keys` iteration order.
   `Map.set` on a fresh key is modelled by appending the new entry.
 - Throwing (`switchLink` with an empty `cases` object) is modelled with
   `Except String`.
 - The external `httpBatchLink` transport collaborator is a parameter of
   the embedding.
-/

namespace SamyxUtils

/-- Operation type of a tRPC call: query, mutation or subscription. -/
inductive OpType where
  | query
  | mutation
  | subscription
deriving DecidableEq, Repr

/-- A call descriptor (`Operation` of `@trpc/client`), parametric in the
type of the caller-supplied context object. -/
structure Operation (C : Type) where
  id : Nat
  type : OpType
  path : String
  input : String
  context : C
deriving DecidableEq, Repr

/-- Terminal event of a result stream: completion or a terminal error
carrying a message. -/
inductive Terminal where
  | complete
  | error (msg : String)
deriving DecidableEq, Repr

/-- A result stream: the values emitted by the observable in order,
followed by its terminal event. -/
structure RStream (V : Type) where
  values : List V
  terminal : Terminal
deriving DecidableEq, Repr

/-- An initialized link (tRPC `OperationLink`): takes the operation and a
`forward` continuation, produces a result stream. -/
def OpHandler (V C : Type) : Type :=
  Operation C → (Operation C → RStream V) → RStream V

/-- A link (tRPC `TRPCLink`): phase 1 takes the runtime object and returns
the initialized operation handler. -/
def Link (V R C : Type) : Type :=
  R → OpHandler V C

/-- A configuration value that is either a single link or a list of links
(`LinkOrLinks` of `types.ts`). -/
inductive LinkOrLinks (V R C : Type) where
  | single (link : Link V R C)
  | list (links : List (Link V R C))

/-- Embeds `asArray` of `switch-link.ts` / `endpoint-router-link.ts`:
`Array.isArray(value) ? value : [value]`. -/
def asArray {V R C : Type} : LinkOrLinks V R C → List (Link V R C)
  | .single link => [link]
  | .list links => links

/-- Modelled from the spec: the Chain Executor `createChain`
(`create-chain.ts`, not among the provided sources).  Invokes element 0
with the operation and a `forward` bound to invoke element 1, and so on;
the `forward` of the final element, if called, produces the error
"no further link in chain". -/
def createChain {V C : Type} : List (OpHandler V C) → Operation C → RStream V
  | [], _ => ⟨[], .error "no further link in chain"⟩
  | link :: rest, op => link op (fun opNext => createChain rest opNext)

/-- Association-list lookup modelling JavaScript object / `Map` key lookup
(first matching key wins; keys are unique in the dictionaries we model). -/
def alookup {B : Type} : List (String × B) → String → Option B
  | [], _ => none
  | (k, v) :: rest, key => if key = k then some v else alookup rest key

/-- Embeds the JavaScript single-character `String.prototype.split` on a
character list: `jsSplit sep s` is the list of separator-free segments of
`s`, as `s.split(sep)` produces them. -/
def jsSplit (sep : Char) : List Char → List (List Char)
  | [] => [[]]
  | c :: cs =>
    match jsSplit sep cs with
    | [] => [[]]
    | seg :: segs => if c = sep then [] :: seg :: segs else (c :: seg) :: segs

/-- Embeds `op.path.split('.')[0]` of `endpoint-router-link.ts`: the router
name of a dotted procedure path. -/
def routerNameOf (path : String) : String :=
  String.mk ((jsSplit '.' path.data).headD [])

/-- Written from the words of the spec: the router name is the substring of
the path before the first dot (the whole path when no dot is present). -/
def specRouterName (path : String) : String :=
  String.mk (path.data.takeWhile (fun c => c ≠ '.'))

/-! ### Switch Router (`switch-link.ts`) -/

/-- Selector context of `switchLink` (`SwitchLinkSelectorContext`). -/
structure SwitchLinkSelectorContext (C : Type) where
  path : String
  type : OpType
  ctx : C
  op : Operation C

/-- Configuration of `switchLink` (`SwitchLinkOptions`): a selector
function and the `cases` object, modelled as an association list in key
insertion order. -/
structure SwitchLinkOptions (V R C : Type) where
  select : SwitchLinkSelectorContext C → String
  cases : List (String × LinkOrLinks V R C)

/-- Embeds the runtime-phase loop of `switchLink`: for every key of
`cases`, normalize its value with `asArray` and apply each link to the
runtime object, storing the result keyed by the case key. -/
def initChains {V R C : Type} (runtime : R)
    (cases : List (String × LinkOrLinks V R C)) :
    List (String × List (OpHandler V C)) :=
  cases.map (fun kv => (kv.1, (asArray kv.2).map (fun link => link runtime)))

/-- Embeds the per-operation observable body of `switchLink`: build the
selector context, select a key, look it up in the chain cache; on a miss
emit the unknown-key error, on a hit run `createChain`. -/
def switchDispatch {V C : Type}
    (select : SwitchLinkSelectorContext C → String)
    (chains : List (String × List (OpHandler V C)))
    (op : Operation C) : RStream V :=
  let selectorContext : SwitchLinkSelectorContext C :=
    ⟨op.path, op.type, op.context, op⟩
  let selectedKey := select selectorContext
  match alookup chains selectedKey with
  | some links => createChain links op
  | none =>
      let validKeys := String.intercalate ", " (chains.map Prod.fst)
      ⟨[], .error ("switchLink: selector returned unknown key \"" ++ selectedKey ++
          "\". Valid keys are: " ++ validKeys)⟩

/-- Embeds `switchLink`: throws (models as `Except.error`) when the
`cases` object is empty, otherwise returns the link whose runtime phase
eagerly builds the chain cache and whose operation phase dispatches
through it. -/
def switchLink {V R C : Type} (opts : SwitchLinkOptions V R C) :
    Except String (R → Operation C → RStream V) :=
  let caseKeys := opts.cases.map Prod.fst
  if caseKeys.length = 0 then
    .error "switchLink: cases object must have at least one entry"
  else
    .ok (fun runtime =>
      let chains := initChains runtime opts.cases
      fun op => switchDispatch opts.select chains op)

/-! ### Endpoint Router (`endpoint-router-link.ts`) -/

/-- Configuration of `endpointRouterLink` (`EndpointRouterLinkOptions`);
`O` is the opaque type of `linkOptions` forwarded to the default
transport factory. -/
structure EndpointRouterLinkOptions (V R C O : Type) where
  routerToEndpoint : List (String × String)
  defaultEndpoint : Option String
  strict : Bool
  linkFactory : Option (String → LinkOrLinks V R C)
  linkOptions : O

/-- Configuration of `typedEndpointRouterLink`
(`TypedEndpointRouterLinkOptions`): the type-level constraint on the
mapping keys has no runtime counterpart, so the runtime fields coincide
with `EndpointRouterLinkOptions`. -/
structure TypedEndpointRouterLinkOptions (V R C O : Type) where
  routerToEndpoint : List (String × String)
  defaultEndpoint : Option String
  strict : Bool
  linkFactory : Option (String → LinkOrLinks V R C)
  linkOptions : O

/-- Runtime state of one endpoint-router instance: the chain cache keyed
by endpoint URL, plus a log of the endpoints passed to the link factory
(instrumentation recording each `createLink` invocation, used to state
the once-per-endpoint properties). -/
structure EndpointState (V C : Type) where
  linkCache : List (String × List (OpHandler V C))
  factoryCalls : List String

/-- The state of a freshly created endpoint-router runtime: empty cache,
no factory invocations yet. -/
def emptyEndpointState (V C : Type) : EndpointState V C :=
  ⟨[], []⟩

/-- Embeds `getInitializedLinks` of `endpoint-router-link.ts`: return the
cached chain for the endpoint, or invoke the link factory, normalize,
apply each link to the runtime object, and cache the result keyed by the
endpoint string. -/
def getInitializedLinks {V R C : Type}
    (createLink : String → LinkOrLinks V R C) (runtime : R)
    (st : EndpointState V C) (endpoint : String) :
    EndpointState V C × List (OpHandler V C) :=
  match alookup st.linkCache endpoint with
  | some links => (st, links)
  | none =>
      let links := asArray (createLink endpoint)
      let inited := links.map (fun link => link runtime)
      (⟨st.linkCache ++ [(endpoint, inited)], st.factoryCalls ++ [endpoint]⟩, inited)

/-- Embeds `routerToEndpoint[routerName] ?? defaultEndpoint`: nullish
coalescing keeps any present mapping value (including the empty string). -/
def resolveEndpoint (routerToEndpoint : List (String × String))
    (defaultEndpoint : Option String) (routerName : String) : Option String :=
  match alookup routerToEndpoint routerName with
  | some endpoint => some endpoint
  | none => defaultEndpoint

/-- Embeds the JavaScript falsiness test `!endpoint` for a value of type
`string | undefined`: true exactly on `undefined` and on the empty
string. -/
def isFalsyStr : Option String → Bool
  | none => true
  | some s => s = ""

/-- Embeds the error message chosen in `endpoint-router-link.ts` when no
endpoint resolves, depending on `strict`; `keys` is the key list of
`routerToEndpoint`, and `joined || '(none)'` is the falsy-or of the
joined string. -/
def noEndpointMsg (strict : Bool) (routerName : String) (keys : List String) : String :=
  let availableMappings := String.intercalate ", " keys
  if strict then
    "endpointRouterLink: no endpoint mapping for router \"" ++ routerName ++
      "\" and no defaultEndpoint provided. Available mappings: " ++
      (if availableMappings = "" then "(none)" else availableMappings)
  else
    "endpointRouterLink: no endpoint for router \"" ++ routerName ++
      "\". Either add it to routerToEndpoint or provide a defaultEndpoint."

/-- Embeds the per-operation observable body of `endpointRouterLink`:
extract the router name, resolve the endpoint, emit the no-endpoint error
when the resolved value is falsy, otherwise fetch-or-build the cached
chain and run `createChain`.  The cache state is passed explicitly. -/
def endpointDispatch {V R C : Type}
    (createLink : String → LinkOrLinks V R C) (runtime : R)
    (routerToEndpoint : List (String × String))
    (defaultEndpoint : Option String) (strict : Bool)
    (st : EndpointState V C) (op : Operation C) :
    EndpointState V C × RStream V :=
  let routerName := routerNameOf op.path
  let endpoint := resolveEndpoint routerToEndpoint defaultEndpoint routerName
  if isFalsyStr endpoint then
    (st, ⟨[], .error (noEndpointMsg strict routerName (routerToEndpoint.map Prod.fst))⟩)
  else
    let hit := getInitializedLinks createLink runtime st (endpoint.getD "")
    (hit.1, createChain hit.2 op)

/-- Embeds `linkFactory ?? ((endpoint) => httpBatchLink({url: endpoint,
...linkOptions}))` of `endpointRouterLink`: the effective link factory,
defaulting to a single transport link built by the external collaborator
`httpBatch` from `linkOptions` and the endpoint. -/
def linkFactoryOf {V R C O : Type}
    (httpBatch : O → String → Link V R C)
    (opts : EndpointRouterLinkOptions V R C O) :
    String → LinkOrLinks V R C :=
  match opts.linkFactory with
  | some factory => factory
  | none => fun endpoint => .single (httpBatch opts.linkOptions endpoint)

/-- Embeds `endpointRouterLink`: pick the effective link factory and
dispatch operations through `endpointDispatch`. -/
def endpointRouterLink {V R C O : Type}
    (httpBatch : O → String → Link V R C)
    (opts : EndpointRouterLinkOptions V R C O)
    (runtime : R) (st : EndpointState V C) (op : Operation C) :
    EndpointState V C × RStream V :=
  endpointDispatch (linkFactoryOf httpBatch opts) runtime opts.routerToEndpoint
    opts.defaultEndpoint opts.strict st op

/-- Embeds `typedEndpointRouterLink`: delegates unconditionally to
`endpointRouterLink` with the same (runtime-identical) configuration. -/
def typedEndpointRouterLink {V R C O : Type}
    (httpBatch : O → String → Link V R C)
    (opts : TypedEndpointRouterLinkOptions V R C O)
    (runtime : R) (st : EndpointState V C) (op : Operation C) :
    EndpointState V C × RStream V :=
  endpointRouterLink httpBatch
    ⟨opts.routerToEndpoint, opts.defaultEndpoint, opts.strict,
      opts.linkFactory, opts.linkOptions⟩
    runtime st op

/-- Runs a sequence of operations through one endpoint-router runtime,
threading the cache state; returns the final state. -/
def runEndpointOps {V R C : Type}
    (createLink : String → LinkOrLinks V R C) (runtime : R)
    (routerToEndpoint : List (String × String))
    (defaultEndpoint : Option String) (strict : Bool)
    (st : EndpointState V C) : List (Operation C) → EndpointState V C
  | [] => st
  | op :: ops =>
      runEndpointOps createLink runtime routerToEndpoint defaultEndpoint strict
        (endpointDispatch createLink runtime routerToEndpoint defaultEndpoint
          strict st op).1 ops

/-- State invariant of one endpoint-router runtime: the factory-call log
is exactly the cache key list (one factory invocation per cache entry,
in insertion order), and the cache keys are pairwise distinct. -/
def EndpointStateInv {V C : Type} (st : EndpointState V C) : Prop :=
  st.factoryCalls = st.linkCache.map Prod.fst ∧
    (st.linkCache.map Prod.fst).Nodup

/-! ### Concrete fixtures used by the witnesses below -/

/-- A sample link whose handler emits the operation id and completes. -/
def wLink : Link Nat Unit Unit :=
  fun _runtime => fun op _forward => ⟨[op.id], .complete⟩

/-- A sample switch configuration with the single case key "a", selecting
by path. -/
def wSwitchOpts : SwitchLinkOptions Nat Unit Unit :=
  ⟨fun sctx => sctx.path, [("a", .single wLink)]⟩

/-- The link produced by `switchLink wSwitchOpts`. -/
def wSwitchF : Unit → Operation Unit → RStream Nat :=
  fun runtime =>
    let chains := initChains runtime wSwitchOpts.cases
    fun op => switchDispatch wSwitchOpts.select chains op

/-- A sample operation with path "a". -/
def wOpA : Operation Unit := ⟨1, .query, "a", "", ()⟩

/-- A sample operation with path "b" (not a case key of `wSwitchOpts`). -/
def wOpB : Operation Unit := ⟨2, .query, "b", "", ()⟩

/-- A sample transport collaborator that ignores its options. -/
def wBatch : Unit → String → Link Nat Unit Unit := fun _ _ => wLink

/-- A sample custom link factory producing a single link. -/
def wFactory : String → LinkOrLinks Nat Unit Unit := fun _ => .single wLink

/-- An endpoint configuration mapping the router name "users" to the
empty string, with a default endpoint present. -/
def wOptsEmptyUrl : EndpointRouterLinkOptions Nat Unit Unit Unit :=
  ⟨[("users", "")], some "/api", false, none, ()⟩

/-- A sample operation with path "users.get". -/
def wOpUsers : Operation Unit := ⟨3, .query, "users.get", "", ()⟩

/-- An endpoint mapping sending two router names to one endpoint. -/
def wSharedMap : List (String × String) := [("u1", "/e"), ("u2", "/e")]

/-- A sample operation under router name "u1". -/
def wOpU1 : Operation Unit := ⟨4, .query, "u1.a", "", ()⟩

/-- A sample operation under router name "u2". -/
def wOpU2 : Operation Unit := ⟨5, .query, "u2.b", "", ()⟩

/-- A sample operation whose router name has no mapping entry. -/
def wOpNone : Operation Unit := ⟨6, .query, "nope.x", "", ()⟩

/-! ### Helper lemmas about the embedded dictionaries and path splitting -/

/-- Lookup misses exactly the keys absent from the key list. -/
theorem alookup_eq_none {B : Type} (l : List (String × B)) (key : String) :
    alookup l key = none ↔ key ∉ l.map Prod.fst := by
  induction l with
  | nil => simp [alookup]
  | cons kv rest ih =>
      obtain ⟨k, v⟩ := kv
      by_cases h : key = k <;> simp [alookup, h, ih]

/-- Appending entries on the right never disturbs an existing binding. -/
theorem alookup_append_left {B : Type} {l : List (String × B)} {key : String} {v : B}
    (h : alookup l key = some v) (l2 : List (String × B)) :
    alookup (l ++ l2) key = some v := by
  induction l with
  | nil => simp [alookup] at h
  | cons kv rest ih =>
      obtain ⟨k, w⟩ := kv
      by_cases hk : key = k
      · simpa [alookup, hk] using h
      · simp [alookup, hk] at h ⊢
        exact ih h

/-- Unfolding equation of `initChains` on an empty cases object. -/
theorem initChains_nil {V R C : Type} (runtime : R) :
    initChains (V := V) (R := R) (C := C) runtime [] = [] := rfl

/-- Unfolding equation of `initChains` on a nonempty cases object. -/
theorem initChains_cons {V R C : Type} (runtime : R)
    (kv : String × LinkOrLinks V R C) (rest : List (String × LinkOrLinks V R C)) :
    initChains runtime (kv :: rest) =
      (kv.1, (asArray kv.2).map (fun link => link runtime)) :: initChains runtime rest := rfl

/-- The chain cache built by `initChains` has exactly the case keys, in
order. -/
theorem initChains_keys {V R C : Type} (runtime : R)
    (cases : List (String × LinkOrLinks V R C)) :
    (initChains runtime cases).map Prod.fst = cases.map Prod.fst := by
  induction cases with
  | nil => rfl
  | cons kv rest ih => simp [initChains_cons, ih]

/-- Looking a key up in the built chain cache returns the normalized,
runtime-applied value stored under that key in the cases object. -/
theorem alookup_initChains {V R C : Type} (runtime : R)
    (cases : List (String × LinkOrLinks V R C)) (key : String) :
    alookup (initChains runtime cases) key =
      (alookup cases key).map (fun v => (asArray v).map (fun link => link runtime)) := by
  induction cases with
  | nil => rfl
  | cons kv rest ih =>
      obtain ⟨k, v⟩ := kv
      by_cases h : key = k
      · simp [initChains, alookup, h]
      · simp only [initChains, List.map_cons, alookup, if_neg h]
        simpa [initChains] using ih

/-- Inversion of a successful `switchLink` construction: the produced link
dispatches every operation through the eagerly built chain cache. -/
theorem switchLink_ok {V R C : Type} {opts : SwitchLinkOptions V R C}
    {f : R → Operation C → RStream V} (h : switchLink opts = .ok f) :
    ∀ runtime op, f runtime op =
      switchDispatch opts.select (initChains runtime opts.cases) op := by
  by_cases hlen : (opts.cases.map Prod.fst).length = 0
  · simp [switchLink, hlen] at h
  · simp only [switchLink, hlen, if_false, Except.ok.injEq] at h
    subst h
    intro runtime op
    rfl

/-- `jsSplit` always produces at least one segment (as the JavaScript
`split` does). -/
theorem jsSplit_ne_nil (sep : Char) (l : List Char) : jsSplit sep l ≠ [] := by
  cases l with
  | nil => simp [jsSplit]
  | cons c cs =>
      unfold jsSplit
      split
      · simp
      · split <;> simp

/-- The first segment of `jsSplit` is the longest separator-free
initial run. -/
theorem jsSplit_headD (sep : Char) (l : List Char) :
    (jsSplit sep l).headD [] = l.takeWhile (fun c => c ≠ sep) := by
  induction l with
  | nil => rfl
  | cons c cs ih =>
      unfold jsSplit
      cases h : jsSplit sep cs with
      | nil => exact absurd h (jsSplit_ne_nil sep cs)
      | cons seg segs =>
          rw [h] at ih
          simp only [List.headD_cons] at ih
          by_cases hc : c = sep
          · simp [hc, List.takeWhile_cons]
          · simp [hc, List.takeWhile_cons, ih]

/-- Rebuilding a string from its character data is the identity. -/
theorem string_mk_data (s : String) : String.mk s.data = s := by
  cases s
  rfl

/-! ### Helper lemmas about the endpoint chain cache -/

/-- A cache hit returns the stored chain and leaves the state untouched:
no factory invocation, no new cache entry. -/
theorem getInitializedLinks_hit {V R C : Type}
    (createLink : String → LinkOrLinks V R C) (runtime : R)
    (st : EndpointState V C) (e : String) {links : List (OpHandler V C)}
    (h : alookup st.linkCache e = some links) :
    getInitializedLinks createLink runtime st e = (st, links) := by
  simp [getInitializedLinks, h]

/-- A cache miss invokes the factory once, appending one cache entry
keyed by the endpoint string and one entry to the factory-call log. -/
theorem getInitializedLinks_miss {V R C : Type}
    (createLink : String → LinkOrLinks V R C) (runtime : R)
    (st : EndpointState V C) (e : String)
    (h : alookup st.linkCache e = none) :
    getInitializedLinks createLink runtime st e =
      (⟨st.linkCache ++
          [(e, (asArray (createLink e)).map (fun link => link runtime))],
        st.factoryCalls ++ [e]⟩,
       (asArray (createLink e)).map (fun link => link runtime)) := by
  simp [getInitializedLinks, h]

/-- An existing cache binding survives any fetch-or-build step. -/
theorem getInitializedLinks_cache_mono {V R C : Type}
    (createLink : String → LinkOrLinks V R C) (runtime : R)
    (st : EndpointState V C) (e : String) {key : String}
    {links : List (OpHandler V C)}
    (h : alookup st.linkCache key = some links) :
    alookup ((getInitializedLinks createLink runtime st e).1).linkCache key =
      some links := by
  cases hl : alookup st.linkCache e with
  | some l2 => rw [getInitializedLinks_hit createLink runtime st e hl]; exact h
  | none => rw [getInitializedLinks_miss createLink runtime st e hl]
            exact alookup_append_left h _

/-- The empty runtime state satisfies the cache invariant. -/
theorem endpointStateInv_empty {V C : Type} :
    EndpointStateInv (emptyEndpointState V C) :=
  ⟨rfl, List.nodup_nil⟩

/-- The fetch-or-build step preserves the cache invariant. -/
theorem getInitializedLinks_inv {V R C : Type}
    (createLink : String → LinkOrLinks V R C) (runtime : R)
    (st : EndpointState V C) (e : String) (h : EndpointStateInv st) :
    EndpointStateInv (getInitializedLinks createLink runtime st e).1 := by
  cases hl : alookup st.linkCache e with
  | some links =>
      rw [getInitializedLinks_hit createLink runtime st e hl]
      exact h
  | none =>
      obtain ⟨h1, h2⟩ := h
      rw [getInitializedLinks_miss createLink runtime st e hl]
      have he : e ∉ st.linkCache.map Prod.fst := (alookup_eq_none _ _).mp hl
      constructor
      · simp [h1]
      · simp [List.nodup_append, h2, he]

/-- Per-operation dispatch preserves the cache invariant. -/
theorem endpointDispatch_inv {V R C : Type}
    (createLink : String → LinkOrLinks V R C) (runtime : R)
    (m : List (String × String)) (d : Option String) (strict : Bool)
    (st : EndpointState V C) (op : Operation C) (h : EndpointStateInv st) :
    EndpointStateInv (endpointDispatch createLink runtime m d strict st op).1 := by
  by_cases hf : isFalsyStr (resolveEndpoint m d (routerNameOf op.path)) = true
  · simpa [endpointDispatch, hf] using h
  · simp only [Bool.not_eq_true] at hf
    simp only [endpointDispatch, hf, Bool.false_eq_true, if_false]
    exact getInitializedLinks_inv createLink runtime st _ h

/-- Any operation sequence preserves the cache invariant. -/
theorem runEndpointOps_inv {V R C : Type}
    (createLink : String → LinkOrLinks V R C) (runtime : R)
    (m : List (String × String)) (d : Option String) (strict : Bool) :
    ∀ (ops : List (Operation C)) (st : EndpointState V C),
      EndpointStateInv st →
      EndpointStateInv (runEndpointOps createLink runtime m d strict st ops) := by
  intro ops
  induction ops with
  | nil => intro st h; exact h
  | cons op rest ih =>
      intro st h
      exact ih _ (endpointDispatch_inv createLink runtime m d strict st op h)

/-! ### Claim theorems -/

/-- C1: for every successfully constructed Switch Router and every
operation whose selector output is a key absent from the cases mapping,
the result stream emits no value and exactly one terminal error whose
message contains the unknown key and the comma-joined list of every valid
case key; the dispatch is a total function of the operation (the failure
is per-call and never thrown synchronously). -/
theorem C1_switch_unknown_key {V R C : Type}
    (opts : SwitchLinkOptions V R C) (f : R → Operation C → RStream V)
    (runtime : R) (op : Operation C)
    (hok : switchLink opts = .ok f)
    (hmiss : opts.select ⟨op.path, op.type, op.context, op⟩ ∉
      opts.cases.map Prod.fst) :
    f runtime op =
      ⟨[], .error ("switchLink: selector returned unknown key \"" ++
          opts.select ⟨op.path, op.type, op.context, op⟩ ++
          "\". Valid keys are: " ++
          String.intercalate ", " (opts.cases.map Prod.fst))⟩ := by
  rw [switchLink_ok hok]
  have hn : alookup (initChains runtime opts.cases)
      (opts.select ⟨op.path, op.type, op.context, op⟩) = none := by
    rw [alookup_initChains, (alookup_eq_none _ _).mpr hmiss]
    rfl
  simp only [switchDispatch, hn, initChains_keys]

/-- Witness for C1: the selector returns "b" while the only case key is
"a"; the stream carries no value and exactly the unknown-key error. -/
theorem C1_switch_unknown_key_witness :
    wSwitchF () wOpB =
      ⟨[], .error
        "switchLink: selector returned unknown key \"b\". Valid keys are: a"⟩ :=
  C1_switch_unknown_key wSwitchOpts wSwitchF () wOpB rfl (by decide)

/-- C2 counterexample: the mapping binds the router name "users" (to the
empty string) and a default endpoint is provided, so by the claim no
error may be emitted for path "users.get" — yet the code emits the
non-strict no-endpoint error, because `!endpoint` is a falsiness test. -/
theorem C2_endpoint_counterexample :
    alookup wOptsEmptyUrl.routerToEndpoint (routerNameOf wOpUsers.path) =
      some "" ∧
    wOptsEmptyUrl.defaultEndpoint = some "/api" ∧
    (endpointRouterLink wBatch wOptsEmptyUrl () (emptyEndpointState Nat Unit)
        wOpUsers).2 =
      ⟨[], .error ("endpointRouterLink: no endpoint for router \"users\". " ++
        "Either add it to routerToEndpoint or provide a defaultEndpoint.")⟩ :=
  ⟨rfl, rfl, rfl⟩

/-- C2 (amended): the Endpoint Router emits the terminal routing error
and completes, never throwing synchronously, exactly when the resolved
value `routerToEndpoint[routerName] ?? defaultEndpoint` is absent or the
empty string (a JavaScript falsiness test); the message is the strict or
non-strict template accordingly, with "(none)" when the comma-joined key
list is empty; otherwise the cached chain for the resolved endpoint is
executed. -/
theorem C2_endpoint_no_endpoint {V R C O : Type}
    (httpBatch : O → String → Link V R C)
    (opts : EndpointRouterLinkOptions V R C O)
    (runtime : R) (st : EndpointState V C) (op : Operation C) :
    (isFalsyStr (resolveEndpoint opts.routerToEndpoint opts.defaultEndpoint
        (routerNameOf op.path)) = true →
      endpointRouterLink httpBatch opts runtime st op =
        (st, ⟨[], .error (if opts.strict then
            "endpointRouterLink: no endpoint mapping for router \"" ++
              routerNameOf op.path ++
              "\" and no defaultEndpoint provided. Available mappings: " ++
              (if String.intercalate ", "
                  (opts.routerToEndpoint.map Prod.fst) = ""
                then "(none)"
                else String.intercalate ", "
                  (opts.routerToEndpoint.map Prod.fst))
          else
            "endpointRouterLink: no endpoint for router \"" ++
              routerNameOf op.path ++
              "\". Either add it to routerToEndpoint or provide a defaultEndpoint.")⟩)) ∧
    (isFalsyStr (resolveEndpoint opts.routerToEndpoint opts.defaultEndpoint
        (routerNameOf op.path)) = false →
      ∃ endpoint, resolveEndpoint opts.routerToEndpoint opts.defaultEndpoint
          (routerNameOf op.path) = some endpoint ∧ endpoint ≠ "" ∧
        endpointRouterLink httpBatch opts runtime st op =
          ((getInitializedLinks (linkFactoryOf httpBatch opts) runtime st
              endpoint).1,
            createChain (getInitializedLinks (linkFactoryOf httpBatch opts)
              runtime st endpoint).2 op)) := by
  constructor
  · intro hf
    simp only [endpointRouterLink, endpointDispatch, hf, if_true, noEndpointMsg]
  · intro hf
    cases he : resolveEndpoint opts.routerToEndpoint opts.defaultEndpoint
        (routerNameOf op.path) with
    | none => rw [he] at hf; simp [isFalsyStr] at hf
    | some e =>
        have hne : e ≠ "" := by
          rw [he] at hf
          simpa [isFalsyStr] using hf
        refine ⟨e, rfl, hne, ?_⟩
        simp [endpointRouterLink, endpointDispatch, he, isFalsyStr, hne]

/-- Witness for C2 (amended): at the counterexample configuration the
resolved endpoint is the empty string, so the non-strict error is emitted
with the state untouched. -/
theorem C2_endpoint_no_endpoint_witness :
    endpointRouterLink wBatch wOptsEmptyUrl () (emptyEndpointState Nat Unit)
        wOpUsers =
      (emptyEndpointState Nat Unit,
        ⟨[], .error ("endpointRouterLink: no endpoint for router \"users\". " ++
          "Either add it to routerToEndpoint or provide a defaultEndpoint.")⟩) :=
  (C2_endpoint_no_endpoint wBatch wOptsEmptyUrl () (emptyEndpointState Nat Unit)
    wOpUsers).1 rfl

/-- C3: in one endpoint-router runtime the chain cache is keyed by the
literal endpoint string: a hit returns the stored chain without invoking
the factory; existing cache entries survive every dispatch (never
evicted); across any operation sequence from the fresh state the factory
runs at most once per distinct endpoint (the call log has no duplicate);
and two router names mapped to the identical endpoint string share one
initialized chain — the second operation changes nothing and the factory
log holds exactly one entry for that endpoint. -/
theorem C3_endpoint_cache_once {V R C : Type}
    (createLink : String → LinkOrLinks V R C) (runtime : R)
    (m : List (String × String)) (d : Option String) (strict : Bool) :
    (∀ (st : EndpointState V C) (e : String) (links : List (OpHandler V C)),
        alookup st.linkCache e = some links →
        getInitializedLinks createLink runtime st e = (st, links)) ∧
    (∀ (st : EndpointState V C) (op : Operation C) (e : String)
        (links : List (OpHandler V C)),
        alookup st.linkCache e = some links →
        alookup ((endpointDispatch createLink runtime m d strict st op).1).linkCache
          e = some links) ∧
    (∀ ops : List (Operation C),
        (runEndpointOps createLink runtime m d strict (emptyEndpointState V C)
          ops).factoryCalls.Nodup) ∧
    (∀ (n1 n2 e : String) (op1 op2 : Operation C),
        alookup m n1 = some e → alookup m n2 = some e → e ≠ "" →
        routerNameOf op1.path = n1 → routerNameOf op2.path = n2 →
        runEndpointOps createLink runtime m d strict (emptyEndpointState V C)
            [op1, op2] =
          runEndpointOps createLink runtime m d strict (emptyEndpointState V C)
            [op1] ∧
        (runEndpointOps createLink runtime m d strict (emptyEndpointState V C)
          [op1, op2]).factoryCalls = [e]) := by
  refine ⟨?_, ?_, ?_, ?_⟩
  · intro st e links h
    exact getInitializedLinks_hit createLink runtime st e h
  · intro st op e links h
    by_cases hf : isFalsyStr (resolveEndpoint m d (routerNameOf op.path)) = true
    · simpa [endpointDispatch, hf] using h
    · simp only [Bool.not_eq_true] at hf
      simp only [endpointDispatch, hf, Bool.false_eq_true, if_false]
      exact getInitializedLinks_cache_mono createLink runtime st _ h
  · intro ops
    have h := runEndpointOps_inv createLink runtime m d strict ops
      (emptyEndpointState V C) endpointStateInv_empty
    rw [h.1]
    exact h.2
  · intro n1 n2 e op1 op2 h1 h2 hne hr1 hr2
    have hres1 : resolveEndpoint m d (routerNameOf op1.path) = some e := by
      rw [hr1]; simp [resolveEndpoint, h1]
    have hres2 : resolveEndpoint m d (routerNameOf op2.path) = some e := by
      rw [hr2]; simp [resolveEndpoint, h2]
    have hst1 : endpointDispatch createLink runtime m d strict
        (emptyEndpointState V C) op1 =
        (⟨[(e, (asArray (createLink e)).map (fun link => link runtime))], [e]⟩,
         createChain ((asArray (createLink e)).map (fun link => link runtime))
           op1) := by
      simp [endpointDispatch, hres1, isFalsyStr, hne, getInitializedLinks,
        emptyEndpointState, alookup]
    have hst2 : endpointDispatch createLink runtime m d strict
        (⟨[(e, (asArray (createLink e)).map (fun link => link runtime))],
          [e]⟩ : EndpointState V C) op2 =
        (⟨[(e, (asArray (createLink e)).map (fun link => link runtime))], [e]⟩,
         createChain ((asArray (createLink e)).map (fun link => link runtime))
           op2) := by
      simp [endpointDispatch, hres2, isFalsyStr, hne, getInitializedLinks,
        alookup]
    constructor
    · simp [runEndpointOps, hst1, hst2]
    · simp [runEndpointOps, hst1, hst2]

/-- Witness for C3: router names "u1" and "u2" both map to "/e"; after
routing one operation through each, the factory log is exactly ["/e"] and
the second operation changed nothing. -/
theorem C3_endpoint_cache_once_witness :
    runEndpointOps wFactory () wSharedMap none false
        (emptyEndpointState Nat Unit) [wOpU1, wOpU2] =
      runEndpointOps wFactory () wSharedMap none false
        (emptyEndpointState Nat Unit) [wOpU1] ∧
    (runEndpointOps wFactory () wSharedMap none false
        (emptyEndpointState Nat Unit) [wOpU1, wOpU2]).factoryCalls = ["/e"] :=
  (C3_endpoint_cache_once wFactory () wSharedMap none false).2.2.2
    "u1" "u2" "/e" wOpU1 wOpU2 rfl rfl (by decide) rfl rfl

/-- C4: handing the Switch Router the runtime object eagerly materializes
every declared case exactly once: the chain cache has exactly the case
keys in order (so distinct declared keys give distinct cache entries, at
most one per key), each entry is the normalized link list applied to the
runtime object in order, and the link produced by `switchLink` dispatches
every operation through this eagerly built cache. -/
theorem C4_switch_eager_init {V R C : Type} (runtime : R)
    (cases : List (String × LinkOrLinks V R C)) :
    ((initChains runtime cases).map Prod.fst = cases.map Prod.fst) ∧
    (∀ key, alookup (initChains runtime cases) key =
        (alookup cases key).map
          (fun v => (asArray v).map (fun link => link runtime))) ∧
    ((cases.map Prod.fst).Nodup →
        ((initChains runtime cases).map Prod.fst).Nodup) ∧
    (∀ (opts : SwitchLinkOptions V R C) (f : R → Operation C → RStream V),
        switchLink opts = .ok f →
        ∀ op, f runtime op =
          switchDispatch opts.select (initChains runtime opts.cases) op) :=
  ⟨initChains_keys runtime cases,
   alookup_initChains runtime cases,
   fun h => by rwa [initChains_keys],
   fun _opts _f hok op => switchLink_ok hok runtime op⟩

/-- Witness for C4: the single declared case "a" is materialized in the
cache, and the constructed router dispatches through that cache. -/
theorem C4_switch_eager_init_witness :
    alookup (initChains () wSwitchOpts.cases) "a" =
      (alookup wSwitchOpts.cases "a").map
        (fun v => (asArray v).map (fun link => link ())) ∧
    ((wSwitchOpts.cases.map Prod.fst).Nodup →
      ((initChains () wSwitchOpts.cases).map Prod.fst).Nodup) ∧
    wSwitchF () wOpA =
      switchDispatch wSwitchOpts.select (initChains () wSwitchOpts.cases) wOpA :=
  ⟨(C4_switch_eager_init () wSwitchOpts.cases).2.1 "a",
   (C4_switch_eager_init () wSwitchOpts.cases).2.2.1,
   (C4_switch_eager_init () wSwitchOpts.cases).2.2.2 wSwitchOpts wSwitchF rfl
     wOpA⟩

/-- C5: on a routing hit both routers hand the operation and the cached
initialized chain to the Chain Executor and return its stream unchanged —
the result of dispatch is exactly one `createChain` application on the
resolved chain, so every emission, the terminal event and their order are
the Chain Executor stream, unchanged. -/
theorem C5_hit_runs_chain {V R C : Type} :
    (∀ (select : SwitchLinkSelectorContext C → String)
        (chains : List (String × List (OpHandler V C)))
        (op : Operation C) (links : List (OpHandler V C)),
        alookup chains (select ⟨op.path, op.type, op.context, op⟩) =
          some links →
        switchDispatch select chains op = createChain links op) ∧
    (∀ (createLink : String → LinkOrLinks V R C) (runtime : R)
        (m : List (String × String)) (d : Option String) (strict : Bool)
        (st : EndpointState V C) (op : Operation C) (e : String),
        resolveEndpoint m d (routerNameOf op.path) = some e → e ≠ "" →
        endpointDispatch createLink runtime m d strict st op =
          ((getInitializedLinks createLink runtime st e).1,
           createChain (getInitializedLinks createLink runtime st e).2 op)) := by
  constructor
  · intro select chains op links hhit
    simp [switchDispatch, hhit]
  · intro createLink runtime m d strict st op e he hne
    simp [endpointDispatch, he, isFalsyStr, hne]

/-- Witness for C5: a hit on case key "a" runs the cached chain, and a
hit on endpoint "/e" runs the fetch-or-build chain for "/e". -/
theorem C5_hit_runs_chain_witness :
    switchDispatch wSwitchOpts.select (initChains () wSwitchOpts.cases) wOpA =
      createChain [wLink ()] wOpA ∧
    endpointDispatch wFactory () wSharedMap none false
        (emptyEndpointState Nat Unit) wOpU1 =
      ((getInitializedLinks wFactory () (emptyEndpointState Nat Unit) "/e").1,
       createChain
         (getInitializedLinks wFactory () (emptyEndpointState Nat Unit) "/e").2
         wOpU1) :=
  ⟨(@C5_hit_runs_chain Nat Unit Unit).1 wSwitchOpts.select
      (initChains () wSwitchOpts.cases) wOpA [wLink ()] rfl,
   (@C5_hit_runs_chain Nat Unit Unit).2 wFactory () wSharedMap none false
      (emptyEndpointState Nat Unit) wOpU1 "/e" rfl (by decide)⟩

/-- C6: constructing a Switch Router succeeds for every cases mapping
with at least one entry, and fails by throwing at construction with the
"cases object must have at least one entry" error for the empty
mapping. -/
theorem C6_switch_construction {V R C : Type} :
    (∀ select : SwitchLinkSelectorContext C → String,
        @switchLink V R C ⟨select, []⟩ =
          .error "switchLink: cases object must have at least one entry") ∧
    (∀ opts : SwitchLinkOptions V R C, opts.cases ≠ [] →
        ∃ f, switchLink opts = .ok f) := by
  constructor
  · intro select
    rfl
  · intro opts h
    have hlen : ¬((opts.cases.map Prod.fst).length = 0) := by
      simp only [List.length_map, List.length_eq_zero]
      exact h
    refine ⟨fun runtime op =>
      switchDispatch opts.select (initChains runtime opts.cases) op, ?_⟩
    simp only [switchLink, hlen, if_false]

/-- Witness for C6: construction fails on the empty mapping and succeeds
on the one-entry mapping `wSwitchOpts`. -/
theorem C6_switch_construction_witness :
    (@switchLink Nat Unit Unit ⟨fun sctx => sctx.path, []⟩ =
      .error "switchLink: cases object must have at least one entry") ∧
    ∃ f, switchLink wSwitchOpts = .ok f :=
  ⟨(@C6_switch_construction Nat Unit Unit).1 (fun sctx => sctx.path),
   (@C6_switch_construction Nat Unit Unit).2 wSwitchOpts (by simp [wSwitchOpts])⟩

/-- C7: the router name extracted by the Endpoint Router is the substring
of the path before the first dot (the whole path when no dot is present),
as on the example path "users.profile.settings.get"; the endpoint then
resolves as `routerToEndpoint[routerName] ?? defaultEndpoint`: a present
mapping value wins, otherwise the default is used. -/
theorem C7_router_name :
    (∀ path : String, routerNameOf path = specRouterName path) ∧
    (∀ path : String, (∀ c ∈ path.data, c ≠ '.') →
        routerNameOf path = path) ∧
    routerNameOf "users.profile.settings.get" = "users" ∧
    (∀ (m : List (String × String)) (d : Option String) (n e : String),
        alookup m n = some e → resolveEndpoint m d n = some e) ∧
    (∀ (m : List (String × String)) (d : Option String) (n : String),
        alookup m n = none → resolveEndpoint m d n = d) := by
  refine ⟨?_, ?_, ?_, ?_, ?_⟩
  · intro path
    unfold routerNameOf specRouterName
    rw [jsSplit_headD]
  · intro path h
    unfold routerNameOf
    rw [jsSplit_headD]
    have ht : path.data.takeWhile (fun c => c ≠ '.') = path.data := by
      rw [List.takeWhile_eq_self_iff]
      intro x hx
      simpa using h x hx
    rw [ht, string_mk_data]
  · rfl
  · intro m d n e h
    simp [resolveEndpoint, h]
  · intro m d n h
    simp [resolveEndpoint, h]

/-- Witness for C7: a dot-free path is its own router name, a mapped
router name resolves to its mapping value, and an unmapped one falls back
to the default endpoint. -/
theorem C7_router_name_witness :
    routerNameOf "users" = "users" ∧
    resolveEndpoint [("users", "/u")] (some "/d") "users" = some "/u" ∧
    resolveEndpoint [("users", "/u")] (some "/d") "billing" = some "/d" :=
  ⟨C7_router_name.2.1 "users" (by decide),
   C7_router_name.2.2.2.1 [("users", "/u")] (some "/d") "users" "/u" rfl,
   C7_router_name.2.2.2.2 [("users", "/u")] (some "/d") "billing" rfl⟩

/-- C8: the Link Normalizer is a pure total function: it wraps a lone
link into a one-element list, returns a given list unchanged (order
preserved), and a bare link and the equivalent one-element list yield
observably identical chain execution. -/
theorem C8_normalizer {V R C : Type} (link : Link V R C)
    (links : List (Link V R C)) (runtime : R) (op : Operation C) :
    asArray (.single link) = [link] ∧
    asArray (.list links) = links ∧
    asArray (LinkOrLinks.single link) = asArray (.list [link]) ∧
    createChain ((asArray (.single link)).map (fun l => l runtime)) op =
      createChain ((asArray (.list [link])).map (fun l => l runtime)) op :=
  ⟨rfl, rfl, rfl, rfl⟩

/-- C9: the type-constrained `typedEndpointRouterLink` has the same
runtime behavior as `endpointRouterLink` applied to the same
configuration — it delegates unconditionally. -/
theorem C9_typed_delegates {V R C O : Type}
    (httpBatch : O → String → Link V R C)
    (opts : TypedEndpointRouterLinkOptions V R C O)
    (runtime : R) (st : EndpointState V C) (op : Operation C) :
    typedEndpointRouterLink httpBatch opts runtime st op =
      endpointRouterLink httpBatch
        ⟨opts.routerToEndpoint, opts.defaultEndpoint, opts.strict,
          opts.linkFactory, opts.linkOptions⟩ runtime st op := rfl

/-- C10: a per-call routing error is atomic: on a Switch Router key miss
the dispatch yields only the unknown-key error stream; on an Endpoint
Router resolution failure the dispatch returns the error stream with the
state (chain cache and factory-call log) unchanged — no chain executed,
no factory invoked — so a failing call leaves the dispatch of every other
call exactly as if it had never happened. -/
theorem C10_routing_error_atomic {V R C : Type} :
    (∀ (select : SwitchLinkSelectorContext C → String)
        (chains : List (String × List (OpHandler V C))) (op : Operation C),
        alookup chains (select ⟨op.path, op.type, op.context, op⟩) = none →
        switchDispatch select chains op =
          ⟨[], .error ("switchLink: selector returned unknown key \"" ++
              select ⟨op.path, op.type, op.context, op⟩ ++
              "\". Valid keys are: " ++
              String.intercalate ", " (chains.map Prod.fst))⟩) ∧
    (∀ (createLink : String → LinkOrLinks V R C) (runtime : R)
        (m : List (String × String)) (d : Option String) (strict : Bool)
        (st : EndpointState V C) (op : Operation C),
        isFalsyStr (resolveEndpoint m d (routerNameOf op.path)) = true →
        endpointDispatch createLink runtime m d strict st op =
          (st, ⟨[], .error (noEndpointMsg strict (routerNameOf op.path)
            (m.map Prod.fst))⟩)) ∧
    (∀ (createLink : String → LinkOrLinks V R C) (runtime : R)
        (m : List (String × String)) (d : Option String) (strict : Bool)
        (st : EndpointState V C) (op1 op2 : Operation C),
        isFalsyStr (resolveEndpoint m d (routerNameOf op1.path)) = true →
        endpointDispatch createLink runtime m d strict
            ((endpointDispatch createLink runtime m d strict st op1).1) op2 =
          endpointDispatch createLink runtime m d strict st op2) := by
  refine ⟨?_, ?_, ?_⟩
  · intro select chains op h
    simp [switchDispatch, h]
  · intro createLink runtime m d strict st op h
    simp [endpointDispatch, h]
  · intro createLink runtime m d strict st op1 op2 h
    have h1 : (endpointDispatch createLink runtime m d strict st op1).1 = st := by
      simp [endpointDispatch, h]
    rw [h1]

/-- Witness for C10: a key miss yields only the error stream, an
unresolved endpoint leaves the fresh state untouched, and a following
operation dispatches exactly as without the failing one. -/
theorem C10_routing_error_atomic_witness :
    switchDispatch wSwitchOpts.select (initChains () wSwitchOpts.cases) wOpB =
      ⟨[], .error
        "switchLink: selector returned unknown key \"b\". Valid keys are: a"⟩ ∧
    endpointDispatch wFactory () wSharedMap none false
        (emptyEndpointState Nat Unit) wOpNone =
      (emptyEndpointState Nat Unit,
        ⟨[], .error (noEndpointMsg false "nope" ["u1", "u2"])⟩) ∧
    endpointDispatch wFactory () wSharedMap none false
        ((endpointDispatch wFactory () wSharedMap none false
          (emptyEndpointState Nat Unit) wOpNone).1) wOpU1 =
      endpointDispatch wFactory () wSharedMap none false
        (emptyEndpointState Nat Unit) wOpU1 :=
  ⟨(@C10_routing_error_atomic Nat Unit Unit).1 wSwitchOpts.select
      (initChains () wSwitchOpts.cases) wOpB rfl,
   (@C10_routing_error_atomic Nat Unit Unit).2.1 wFactory () wSharedMap none
      false (emptyEndpointState Nat Unit) wOpNone rfl,
   (@C10_routing_error_atomic Nat Unit Unit).2.2 wFactory () wSharedMap none
      false (emptyEndpointState Nat Unit) wOpNone wOpU1 rfl⟩

end SamyxUtils
